import Mathlib

/-!
Shallow embedding of the License Management System backend
(`backend/app`: `models.py`, `auth.py`, `dependencies.py`,
`routers/admin.py`, `routers/customer.py`, `routers/subscription.py`).

Conventions of the embedding:
* Timestamps are natural numbers (seconds); `timedelta(days = d)` is
  `d * 86400` seconds.  Each `datetime.utcnow()` call inside an operation
  is a separate explicit parameter, in source order, since distinct calls
  may return distinct instants.
* SQLAlchemy `query(...).filter(...).first()` over a table is `List.find?`
  with the filter predicate; `.all()` with `offset/limit` is
  `List.drop/List.take`; an inner `join` contributes an existence /
  lookup condition on the joined table.
* `HTTPException` outcomes are `Except ApiError`; the constructor keeps
  the HTTP status class and the `detail` string of the source.
* Monetary `price` values are carried as opaque integers; no claim
  computes with them.
-/

namespace LMS

inductive SubStatus where
  | requested
  | approved
  | active
  | inactive
  | expired
deriving DecidableEq, Repr

structure User where
  id : Nat
  email : String
  password_hash : String
  role : String
  is_active : Bool
deriving DecidableEq, Repr

structure Customer where
  id : Nat
  user_id : Nat
  name : String
  email : String
  phone : String
  is_active : Bool
deriving DecidableEq, Repr

structure SubscriptionPack where
  id : Nat
  name : String
  descr : String
  sku : String
  price : Int
  validity_months : Nat
  is_active : Bool
deriving DecidableEq, Repr

structure Subscription where
  id : Nat
  customer_id : Nat
  pack_id : Nat
  status : SubStatus
  requested_at : Option Nat
  approved_at : Option Nat
  assigned_at : Option Nat
  expires_at : Option Nat
  deactivated_at : Option Nat
deriving DecidableEq, Repr

structure ApiKey where
  id : Nat
  customer_id : Nat
  key : String
  is_active : Bool
  expires_at : Option Nat
deriving DecidableEq, Repr

/-- The backing store.  `nextSubId` models the autoincrement primary key
of the `subscriptions` table. -/
structure DB where
  users : List User
  customers : List Customer
  packs : List SubscriptionPack
  subs : List Subscription
  api_keys : List ApiKey
  nextSubId : Nat
deriving DecidableEq, Repr

/-- `HTTPException` classes used by the routers, with the `detail` string. -/
inductive ApiError where
  | notFound (detail : String)
  | badRequest (detail : String)
  | unauthorized (detail : String)
  | forbidden (detail : String)
  | internal (detail : String)
deriving DecidableEq, Repr

/-- `Subscription.status.in_(["active", "approved"])`. -/
def isLiveB : SubStatus → Bool
  | .active => true
  | .approved => true
  | _ => false

/-- `Subscription.status.in_(["active", "approved", "requested"])`. -/
def isPendingB : SubStatus → Bool
  | .active => true
  | .approved => true
  | .requested => true
  | _ => false

/-- Filter of the live-subscription queries:
`customer_id == cid` and status in `{active, approved}`. -/
def livePred (cid : Nat) (s : Subscription) : Bool :=
  s.customer_id == cid && isLiveB s.status

/-- Filter of the pending-subscription query of the request endpoints:
`customer_id == cid` and status in `{active, approved, requested}`. -/
def pendingPred (cid : Nat) (s : Subscription) : Bool :=
  s.customer_id == cid && isPendingB s.status

/-- `query(Subscription).join(SubscriptionPack)` keeps the rows whose
pack row exists. -/
def packJoined (db : DB) (s : Subscription) : Bool :=
  db.packs.any (fun p => p.id == s.pack_id)

/-- `subscription.expires_at and subscription.expires_at < datetime.utcnow()`. -/
def isExpiredAt (s : Subscription) (now : Nat) : Bool :=
  match s.expires_at with
  | some e => decide (e < now)
  | none => false

/-- The in-place mutation `subscription.status = "expired"` on the row
with primary key `sid`. -/
def expireSub (subs : List Subscription) (sid : Nat) : List Subscription :=
  subs.map (fun s => if s.id == sid then { s with status := .expired } else s)

/-- Number of the customer's subscriptions with status in `{active, approved}`. -/
def liveCount (db : DB) (cid : Nat) : Nat :=
  db.subs.countP (livePred cid)

/-- Number of the customer's subscriptions with status in
`{requested, approved, active}`. -/
def pendingCount (db : DB) (cid : Nat) : Nat :=
  db.subs.countP (pendingPred cid)

/-- Spec invariant (weak form): at most one subscription per customer with
status in `{active, approved}`. -/
def atMostOneLive (db : DB) : Prop :=
  ∀ cid, liveCount db cid ≤ 1

/-- Spec invariant (strong form, the one the spec states): at most one
subscription per customer with status in `{requested, approved, active}`. -/
def atMostOnePending (db : DB) : Prop :=
  ∀ cid, pendingCount db cid ≤ 1

/-- Primary-key uniqueness of the `subscriptions` table. -/
def subIdsNodup (db : DB) : Prop :=
  (db.subs.map Subscription.id).Nodup

/-! ## routers/customer.py and routers/subscription.py: read path

`get_customer_subscription` (customer router) and `get_sdk_subscription`
(SDK router) contain the identical query-check-expire-return block; the
customer variant first resolves the `Customer` row from the authenticated
user.  `read_active_subscription` is that shared block, verbatim. -/

/-- The subscription fields serialized in the read responses. -/
structure SubData where
  id : Nat
  pack_name : String
  pack_sku : String
  price : Int
  status : SubStatus
  requested_at : Option Nat
  approved_at : Option Nat
  assigned_at : Option Nat
  expires_at : Option Nat
  is_valid : Bool
deriving DecidableEq, Repr

/-- Shared body of `get_customer_subscription` (customer.py 154-188) and
`get_sdk_subscription` (subscription.py 84-116): find the subscription in
`{active, approved}` joined with its pack; 404 if none; lazily set
`status = "expired"` and commit when `expires_at < now`; return the data. -/
def read_active_subscription (db : DB) (cid now : Nat) :
    Except ApiError (DB × SubData) :=
  match db.subs.find? (fun s => livePred cid s && packJoined db s) with
  | none => .error (.notFound "No active subscription found")
  | some sub =>
    match db.packs.find? (fun p => p.id == sub.pack_id) with
    | none => .error (.internal "subscription pack row missing")
    | some pack =>
      if isExpiredAt sub now then
        .ok ({ db with subs := expireSub db.subs sub.id },
             { id := sub.id, pack_name := pack.name, pack_sku := pack.sku,
               price := pack.price, status := .expired,
               requested_at := sub.requested_at, approved_at := sub.approved_at,
               assigned_at := sub.assigned_at, expires_at := sub.expires_at,
               is_valid := false })
      else
        .ok (db,
             { id := sub.id, pack_name := pack.name, pack_sku := pack.sku,
               price := pack.price, status := sub.status,
               requested_at := sub.requested_at, approved_at := sub.approved_at,
               assigned_at := sub.assigned_at, expires_at := sub.expires_at,
               is_valid := true })

/-- `GET /api/v1/customer/subscription` (customer.py 141-188). -/
def get_customer_subscription (db : DB) (user_id now : Nat) :
    Except ApiError (DB × SubData) :=
  match db.customers.find? (fun c => c.user_id == user_id) with
  | none => .error (.notFound "Customer profile not found")
  | some customer => read_active_subscription db customer.id now

/-- `GET /sdk/v1/subscription` (subscription.py 78-116); the SDK customer
is resolved by the API-key dependency before the handler runs. -/
def get_sdk_subscription (db : DB) (cid now : Nat) :
    Except ApiError (DB × SubData) :=
  read_active_subscription db cid now

/-- Database state left behind by one call of the read path (an error
response leaves the store untouched). -/
def readStateAfter (db : DB) (cid now : Nat) : DB :=
  match read_active_subscription db cid now with
  | .ok (db', _) => db'
  | .error _ => db

/-! ## routers/customer.py: request / deactivate -/

/-- `POST /api/v1/customer/subscription` (customer.py 190-251): resolve the
customer profile; Conflict (HTTP 400) if a subscription in
`{active, approved, requested}` exists; 404 if the SKU is not an active
pack; else insert `Subscription(status="requested", requested_at=now)`. -/
def request_customer_subscription (db : DB) (user_id : Nat) (sku : String)
    (now : Nat) : Except ApiError DB :=
  match db.customers.find? (fun c => c.user_id == user_id) with
  | none => .error (.notFound "Customer profile not found")
  | some customer =>
    match db.subs.find? (pendingPred customer.id) with
    | some _ => .error (.badRequest "You already have an active or pending subscription")
    | none =>
      match db.packs.find? (fun p => p.sku == sku && p.is_active) with
      | none => .error (.notFound "Subscription pack not found")
      | some pack =>
        .ok { db with
              subs := db.subs ++
                [{ id := db.nextSubId, customer_id := customer.id,
                   pack_id := pack.id, status := .requested,
                   requested_at := some now, approved_at := none,
                   assigned_at := none, expires_at := none,
                   deactivated_at := none }],
              nextSubId := db.nextSubId + 1 }

/-- Shared body of `deactivate_customer_subscription` (customer.py 266-279)
and `deactivate_sdk_subscription` (subscription.py 184-198): find the
subscription in `{active, approved}` (no pack join, no expiry check);
404 if none; set `status = "inactive"`, `deactivated_at = now`. -/
def deactivate_subscription_core (db : DB) (cid now : Nat) :
    Except ApiError DB :=
  match db.subs.find? (livePred cid) with
  | none => .error (.notFound "No active subscription found")
  | some sub =>
    .ok { db with
          subs := db.subs.map (fun s =>
            if s.id == sub.id then
              { s with status := .inactive, deactivated_at := some now }
            else s) }

/-- `DELETE /api/v1/customer/subscription` (customer.py 253-285). -/
def deactivate_customer_subscription (db : DB) (user_id now : Nat) :
    Except ApiError DB :=
  match db.customers.find? (fun c => c.user_id == user_id) with
  | none => .error (.notFound "Customer profile not found")
  | some customer => deactivate_subscription_core db customer.id now

/-- `DELETE /sdk/v1/subscription` (subscription.py 178-204). -/
def deactivate_sdk_subscription (db : DB) (cid now : Nat) :
    Except ApiError DB :=
  deactivate_subscription_core db cid now

/-! ## routers/admin.py: customer and pack lookups, assign, approve, list -/

/-- `GET /api/v1/admin/customers/{id}` (admin.py 190-211): lookup filters
`Customer.is_active == True`. -/
def get_customer (db : DB) (customer_id : Nat) : Except ApiError Customer :=
  match db.customers.find? (fun c => c.id == customer_id && c.is_active) with
  | none => .error (.notFound "Customer not found")
  | some c => .ok c

/-- Case-insensitive substring match modelling SQL `ilike '%pat%'`. -/
def ilikeContains (hay pat : String) : Bool :=
  pat.toLower.isEmpty || (hay.toLower.splitOn pat.toLower).length > 1

/-- `GET /api/v1/admin/customers` (admin.py 101-129): filter
`is_active == True`, optional name/email search, paginate; returns the
page and the total count. -/
def list_customers (db : DB) (page limit : Nat) (search : Option String) :
    List Customer × Nat :=
  let base := db.customers.filter (fun c => c.is_active)
  let filtered :=
    match search with
    | none => base
    | some pat => base.filter (fun c =>
        ilikeContains c.name pat || ilikeContains c.email pat)
  ((filtered.drop ((page - 1) * limit)).take limit, filtered.length)

/-- `DELETE /api/v1/admin/customers/{id}` (admin.py 273-291): the lookup
has no `is_active` filter; soft-delete sets `is_active = False`. -/
def delete_customer (db : DB) (customer_id : Nat) : Except ApiError DB :=
  match db.customers.find? (fun c => c.id == customer_id) with
  | none => .error (.notFound "Customer not found")
  | some _ =>
    .ok { db with
          customers := db.customers.map (fun c =>
            if c.id == customer_id then { c with is_active := false } else c) }

/-- `GET /api/v1/admin/subscription-packs/{id}` (admin.py 405-426): lookup
filters `is_active == True`. -/
def get_subscription_pack (db : DB) (pack_id : Nat) :
    Except ApiError SubscriptionPack :=
  match db.packs.find? (fun p => p.id == pack_id && p.is_active) with
  | none => .error (.notFound "Subscription pack not found")
  | some p => .ok p

/-- `POST /api/v1/admin/customers/{id}/assign-subscription`
(admin.py 293-340).  The customer and pack lookups have no `is_active`
filter; the conflict check covers `{active, approved}` only.  `t1` is the
`utcnow()` of the `expires_at` computation (line 328), `t2` the later
`utcnow()` stored in `assigned_at` (line 333). -/
def assign_subscription (db : DB) (customer_id pack_id : Nat) (t1 t2 : Nat) :
    Except ApiError DB :=
  match db.customers.find? (fun c => c.id == customer_id) with
  | none => .error (.notFound "Customer not found")
  | some _ =>
    match db.packs.find? (fun p => p.id == pack_id) with
    | none => .error (.notFound "Subscription pack not found")
    | some pack =>
      match db.subs.find? (livePred customer_id) with
      | some _ => .error (.badRequest "Customer already has an active subscription")
      | none =>
        .ok { db with
              subs := db.subs ++
                [{ id := db.nextSubId, customer_id := customer_id,
                   pack_id := pack_id, status := .active,
                   requested_at := none, approved_at := none,
                   assigned_at := some t2,
                   expires_at := some (t1 + pack.validity_months * 30 * 86400),
                   deactivated_at := none }],
              nextSubId := db.nextSubId + 1 }

/-- `POST /api/v1/admin/subscriptions/{id}/approve` (admin.py 556-600):
404 if missing; HTTP 400 if status is not `requested`; HTTP 400 Conflict
if another subscription of the same customer is in `{active, approved}`;
else set `status = "approved"`, `approved_at = t1` (line 592) and
`expires_at = t2 + validity_months*30 days` (line 595), `t1` and `t2`
being the two successive `utcnow()` calls.  The pack row is reached
through the `subscription.pack` relationship. -/
def approve_subscription (db : DB) (subscription_id : Nat) (t1 t2 : Nat) :
    Except ApiError DB :=
  match db.subs.find? (fun s => s.id == subscription_id) with
  | none => .error (.notFound "Subscription not found")
  | some sub =>
    match sub.status with
    | .requested =>
      match db.subs.find? (fun s =>
          s.customer_id == sub.customer_id && isLiveB s.status &&
          s.id != subscription_id) with
      | some _ => .error (.badRequest "Customer already has an active subscription")
      | none =>
        match db.packs.find? (fun p => p.id == sub.pack_id) with
        | none => .error (.internal "subscription pack row missing")
        | some pack =>
          .ok { db with
                subs := db.subs.map (fun s =>
                  if s.id == subscription_id then
                    { s with
                        status := .approved,
                        approved_at := some t1,
                        expires_at := some (t2 + pack.validity_months * 30 * 86400) }
                  else s) }
    | _ => .error (.badRequest "Only requested subscriptions can be approved")

/-- One row of the admin subscription listing. -/
structure AdminSubRow where
  id : Nat
  customer_name : String
  customer_email : String
  pack_name : String
  pack_sku : String
  price : Int
  status : SubStatus
  requested_at : Option Nat
  approved_at : Option Nat
  assigned_at : Option Nat
  expires_at : Option Nat
deriving DecidableEq, Repr

/-- `GET /api/v1/admin/subscriptions` (admin.py 512-554): inner-join the
customer and pack rows, optional status filter, paginate and serialize.
The handler performs no write: it returns the stored `status` verbatim,
with no expiry check. -/
def list_subscriptions (db : DB) (statusF : Option SubStatus)
    (page limit : Nat) : List AdminSubRow :=
  let joined := db.subs.filterMap (fun s =>
    match db.customers.find? (fun c => c.id == s.customer_id),
          db.packs.find? (fun p => p.id == s.pack_id) with
    | some c, some p => some (s, c, p)
    | _, _ => none)
  let filtered :=
    match statusF with
    | none => joined
    | some st => joined.filter (fun x => decide (x.1.status = st))
  ((filtered.drop ((page - 1) * limit)).take limit).map (fun x =>
    { id := x.1.id, customer_name := x.2.1.name, customer_email := x.2.1.email,
      pack_name := x.2.2.name, pack_sku := x.2.2.sku, price := x.2.2.price,
      status := x.1.status, requested_at := x.1.requested_at,
      approved_at := x.1.approved_at, assigned_at := x.1.assigned_at,
      expires_at := x.1.expires_at })

/-! ## auth.py and dependencies.py -/

/-- `verify_password` (auth.py 25-35).  `bcryptVerify plain hashed` is
`pwd_context.verify`: `some b` when it returns `b`, `none` when it raises.
`md5hex` is `hashlib.md5(·.encode()).hexdigest()`.  On a raise, the MD5
fallback applies exactly when the stored hash has length 32; any other
unverifiable hash yields `false`. -/
def verify_password (bcryptVerify : String → String → Option Bool)
    (md5hex : String → String) (plain_password hashed_password : String) :
    Bool :=
  match bcryptVerify plain_password hashed_password with
  | some b => b
  | none =>
    if hashed_password.length == 32 then
      md5hex plain_password == hashed_password
    else
      false

/-- Decoded JWT payload fields the resolver reads. -/
structure TokenPayload where
  sub : Option String
  role : Option String
deriving DecidableEq, Repr

/-- `verify_token` (auth.py 58-68): `decode` is `jwt.decode` under the
server secret, `none` for any `JWTError` (bad signature, malformed,
expired); every such failure is the one uniform 401. -/
def verify_token (decode : String → Option TokenPayload) (token : String) :
    Except ApiError TokenPayload :=
  match decode token with
  | some payload => .ok payload
  | none => .error (.unauthorized "Could not validate credentials")

/-- Body of the `try` block of `get_current_user` (dependencies.py 21-43):
verify the token, read `sub`, look the user up by email, reject inactive
users.  The distinct error details here never escape: see
`get_current_user`. -/
def get_current_user_attempt (decode : String → Option TokenPayload)
    (db : DB) (token : String) : Except ApiError User :=
  match verify_token decode token with
  | .error e => .error e
  | .ok payload =>
    match payload.sub with
    | none => .error (.unauthorized "Could not validate credentials")
    | some email =>
      match db.users.find? (fun u => u.email == email) with
      | none => .error (.unauthorized "User not found")
      | some user =>
        if user.is_active then .ok user
        else .error (.badRequest "Inactive user")

/-- `get_current_user` (dependencies.py 16-48): the whole body sits in
`try/except Exception`, so every raised error — including the inner
`HTTPException`s — is replaced by the uniform 401. -/
def get_current_user (decode : String → Option TokenPayload) (db : DB)
    (token : String) : Except ApiError User :=
  match get_current_user_attempt decode db token with
  | .ok user => .ok user
  | .error _ => .error (.unauthorized "Could not validate credentials")

/-! ## Shared list lemmas -/

/-- Two distinct elements both satisfying `p` force `countP p l ≥ 2`. -/
theorem two_mem_le_countP {α : Type _} {p : α → Bool} {l : List α} {a b : α}
    (ha : a ∈ l) (hb : b ∈ l) (hne : a ≠ b) (hpa : p a = true)
    (hpb : p b = true) : 2 ≤ l.countP p := by
  induction l with
  | nil => cases ha
  | cons x t ih =>
    rw [List.countP_cons]
    rcases List.mem_cons.mp ha with h | hat
    · subst h
      have hbt : b ∈ t := by
        rcases List.mem_cons.mp hb with h | h
        · exact absurd h.symm hne
        · exact h
      have h1 : 0 < t.countP p := List.countP_pos_iff.mpr ⟨b, hbt, hpb⟩
      rw [hpa, if_pos rfl]
      omega
    · rcases List.mem_cons.mp hb with h | hbt
      · subst h
        have h1 : 0 < t.countP p := List.countP_pos_iff.mpr ⟨a, hat, hpa⟩
        rw [hpb, if_pos rfl]
        omega
      · have := ih hat hbt
        omega

/-- Appending one element adds its indicator to the count. -/
theorem countP_append_singleton {α : Type _} (p : α → Bool) (l : List α)
    (a : α) :
    List.countP p (l ++ [a]) = List.countP p l + if p a then 1 else 0 := by
  rw [List.countP_append, List.countP_cons, List.countP_nil, Nat.zero_add]

/-- A subscription still in status `requested` is not live. -/
theorem livePred_of_requested (cid : Nat) (s : Subscription)
    (h : s.status = .requested) : livePred cid s = false := by
  simp [livePred, isLiveB, h]

/-- A subscription of another customer never matches `livePred cid`. -/
theorem livePred_of_other (cid : Nat) (s : Subscription)
    (h : ¬ s.customer_id = cid) : livePred cid s = false := by
  simp [livePred, h]

/-- A subscription of another customer never matches `pendingPred cid`. -/
theorem pendingPred_of_other (cid : Nat) (s : Subscription)
    (h : ¬ s.customer_id = cid) : pendingPred cid s = false := by
  simp [pendingPred, h]

/-- When the images of `f` over `l` are pairwise distinct, at most one
element of `l` has a given `f`-value. -/
theorem countP_eq_le_one_of_nodup_map {α β : Type _} [BEq β] [LawfulBEq β]
    {f : α → β} {l : List α} (h : (l.map f).Nodup) (b : β) :
    l.countP (fun a => f a == b) ≤ 1 := by
  induction l with
  | nil => simp
  | cons x t ih =>
    rw [List.map_cons, List.nodup_cons] at h
    rw [List.countP_cons]
    by_cases hx : f x = b
    · have hzero : t.countP (fun a => f a == b) = 0 := by
        rw [List.countP_eq_zero]
        intro a hat hab
        exact h.1 (List.mem_map.mpr ⟨a, hat, by
          have : f a = b := by simpa using hab
          rw [this, hx]⟩)
      simp [hzero, hx]
    · have : (f x == b) = false := by simpa using hx
      simpa [this] using ih h.2

/-! ## C1 -/

def c1_db0 : DB :=
  { users := [⟨10, "a@b.c", "h", "customer", true⟩],
    customers := [⟨1, 10, "Alice", "a@b.c", "1", true⟩],
    packs := [⟨1, "Basic", "", "basic", 999, 1, true⟩],
    subs := [], api_keys := [], nextSubId := 1 }

def c1_db1 : DB :=
  { c1_db0 with
    subs := [⟨1, 1, 1, .requested, some 0, none, none, none, none⟩],
    nextSubId := 2 }

def c1_db2 : DB :=
  { c1_db0 with
    subs := [⟨1, 1, 1, .requested, some 0, none, none, none, none⟩,
             ⟨2, 1, 1, .active, none, none, some 6, some 2592005, none⟩],
    nextSubId := 3 }

/-- **C1** counterexample: from an empty store, `RequestSubscription`
succeeds leaving one `requested` subscription (the spec invariant still
holds), and then `AssignSubscription` for the same customer also succeeds —
its conflict check covers only `{active, approved}` — leaving the customer
with two subscriptions whose status lies in `{requested, approved, active}`,
so the claimed invariant is violated rather than the attempt rejected. -/
theorem c1_counterexample :
    request_customer_subscription c1_db0 10 "basic" 0 = .ok c1_db1 ∧
    atMostOnePending c1_db1 ∧
    assign_subscription c1_db1 1 1 5 6 = .ok c1_db2 ∧
    ¬ atMostOnePending c1_db2 := by
  refine ⟨by rfl, ?_, by rfl, ?_⟩
  · intro cid
    have hl : c1_db1.subs.length ≤ 1 := by decide
    exact le_trans (List.countP_le_length _) hl
  · intro h
    exact absurd (h 1) (by decide)

/-- **C1** (amended): every customer has at most one subscription with
status in `{approved, active}`; `RequestSubscription`,
`AssignSubscription` and `ApproveSubscription` all preserve this weaker
invariant (for `ApproveSubscription` under primary-key uniqueness of the
subscription table), `RequestSubscription` additionally preserves the
spec's stronger `{requested, approved, active}` invariant, and
`AssignSubscription` rejects with Conflict whenever a subscription in
`{active, approved}` already exists.  The stronger invariant is *not*
preserved by `AssignSubscription` (see the counterexample). -/
theorem c1_amended_invariant :
    (∀ db uid sku now db', atMostOneLive db →
       request_customer_subscription db uid sku now = .ok db' →
       atMostOneLive db') ∧
    (∀ db uid sku now db', atMostOnePending db →
       request_customer_subscription db uid sku now = .ok db' →
       atMostOnePending db') ∧
    (∀ db cid pid t1 t2 db', atMostOneLive db →
       assign_subscription db cid pid t1 t2 = .ok db' →
       atMostOneLive db') ∧
    (∀ db sid t1 t2 db', subIdsNodup db → atMostOneLive db →
       approve_subscription db sid t1 t2 = .ok db' →
       atMostOneLive db') ∧
    (∀ db cid pid t1 t2 c p s,
       db.customers.find? (fun c' => c'.id == cid) = some c →
       db.packs.find? (fun p' => p'.id == pid) = some p →
       db.subs.find? (livePred cid) = some s →
       assign_subscription db cid pid t1 t2 =
         .error (.badRequest "Customer already has an active subscription")) := by
  refine ⟨?_, ?_, ?_, ?_, ?_⟩
  · intro db uid sku now db' hInv h
    unfold request_customer_subscription at h
    split at h
    · exact absurd h (by simp)
    split at h
    · exact absurd h (by simp)
    split at h
    · exact absurd h (by simp)
    rw [Except.ok.injEq] at h
    subst h
    intro cid
    show List.countP (livePred cid) (db.subs ++ [_]) ≤ 1
    rw [countP_append_singleton, livePred_of_requested cid _ rfl, if_neg
      (by simp)]
    exact hInv cid
  · intro db uid sku now db' hInv h
    unfold request_customer_subscription at h
    split at h
    · exact absurd h (by simp)
    rename_i customer hc
    split at h
    · exact absurd h (by simp)
    rename_i hnone
    split at h
    · exact absurd h (by simp)
    rw [Except.ok.injEq] at h
    subst h
    intro cid
    show List.countP (pendingPred cid) (db.subs ++ [_]) ≤ 1
    rw [countP_append_singleton]
    by_cases hcid : cid = customer.id
    · subst hcid
      have hzero : db.subs.countP (pendingPred customer.id) = 0 := by
        rw [List.countP_eq_zero]
        exact List.find?_eq_none.mp hnone
      rw [hzero]
      split <;> simp
    · rw [pendingPred_of_other cid _ (fun hcc => hcid hcc.symm), if_neg
        (by simp)]
      exact hInv cid
  · intro db cid0 pid t1 t2 db' hInv h
    unfold assign_subscription at h
    split at h
    · exact absurd h (by simp)
    split at h
    · exact absurd h (by simp)
    split at h
    · exact absurd h (by simp)
    rename_i hnone
    rw [Except.ok.injEq] at h
    subst h
    intro cid
    show List.countP (livePred cid) (db.subs ++ [_]) ≤ 1
    rw [countP_append_singleton]
    by_cases hcid : cid = cid0
    · subst hcid
      have hzero : db.subs.countP (livePred cid) = 0 := by
        rw [List.countP_eq_zero]
        exact List.find?_eq_none.mp hnone
      rw [hzero]
      split <;> simp
    · rw [livePred_of_other cid _ (fun hcc => hcid hcc.symm), if_neg
        (by simp)]
      exact hInv cid
  · intro db sid t1 t2 db' hNodup hInv h
    unfold approve_subscription at h
    split at h
    · exact absurd h (by simp)
    rename_i sub hfound
    split at h
    case _ =>
      rename_i hst
      split at h
      · exact absurd h (by simp)
      rename_i hconf
      split at h
      · exact absurd h (by simp)
      rw [Except.ok.injEq] at h
      subst h
      have hsubmem : sub ∈ db.subs := List.mem_of_find?_eq_some hfound
      have hsubid : sub.id = sid := by
        simpa using List.find?_some hfound
      intro cid
      show List.countP (livePred cid) (db.subs.map _) ≤ 1
      rw [List.countP_map]
      by_cases hcid : cid = sub.customer_id
      · subst hcid
        refine le_trans (List.countP_mono_left (q := fun s => s.id == sid) ?_)
          (countP_eq_le_one_of_nodup_map hNodup sid)
        intro s hs hls
        by_cases hid : s.id = sid
        · simpa using hid
        · exfalso
          have hif : (s.id == sid) = false := by simpa using hid
          rw [Function.comp_apply, if_neg (by simp [hif])] at hls
          have hnc := List.find?_eq_none.mp hconf s hs
          rw [livePred] at hls
          simp only [Bool.and_eq_true, beq_iff_eq] at hls
          apply hnc
          simp only [Bool.and_eq_true, beq_iff_eq, bne_iff_ne]
          exact ⟨⟨hls.1, hls.2⟩, hid⟩
      · refine le_trans (List.countP_mono_left (q := livePred cid) ?_)
          (hInv cid)
        intro s hs hls
        by_cases hid : s.id = sid
        · exfalso
          have hssub : s = sub := List.inj_on_of_nodup_map hNodup hs hsubmem
            (by rw [hid, hsubid])
          subst hssub
          have hif : (s.id == sid) = true := by simpa using hid
          rw [Function.comp_apply, if_pos hif, livePred] at hls
          simp only [Bool.and_eq_true, beq_iff_eq] at hls
          exact hcid hls.1.symm
        · have hif : (s.id == sid) = false := by simpa using hid
          rw [Function.comp_apply, if_neg (by simp [hif])] at hls
          exact hls
    case _ =>
      exact absurd h (by simp)
  · intro db cid pid t1 t2 c p s hc hp hs
    unfold assign_subscription
    rw [hc, hp, hs]

def c1_db3 : DB :=
  { c1_db0 with
    subs := [⟨1, 1, 1, .approved, some 0, some 7, none, some 2592008, none⟩],
    nextSubId := 2 }

/-- Witness instantiating every conjunct of `c1_amended_invariant` on
concrete stores. -/
theorem c1_amended_invariant_witness :
    liveCount c1_db1 1 ≤ 1 ∧ pendingCount c1_db1 1 ≤ 1 ∧
    liveCount c1_db2 1 ≤ 1 ∧ liveCount c1_db3 1 ≤ 1 ∧
    assign_subscription c1_db2 1 1 9 9 =
      .error (.badRequest "Customer already has an active subscription") := by
  have H := c1_amended_invariant
  have h0 : atMostOneLive c1_db0 := by
    intro cid
    simp [liveCount, c1_db0]
  have h1 : atMostOneLive c1_db1 := by
    intro cid
    exact le_trans (List.countP_le_length _) (by decide)
  exact ⟨H.1 c1_db0 10 "basic" 0 c1_db1 h0 rfl 1,
         H.2.1 c1_db0 10 "basic" 0 c1_db1
           (by intro cid; simp [pendingCount, c1_db0]) rfl 1,
         H.2.2.1 c1_db1 1 1 5 6 c1_db2 h1 rfl 1,
         H.2.2.2.1 c1_db1 1 7 8 c1_db3
           (by show (c1_db1.subs.map Subscription.id).Nodup; decide) h1 rfl 1,
         H.2.2.2.2 c1_db2 1 1 9 9 _ _ _ rfl rfl rfl⟩

/-! ## C2 -/

def c2_db : DB :=
  { users := [⟨10, "a@b.c", "h", "customer", true⟩],
    customers := [⟨1, 10, "Alice", "a@b.c", "1", true⟩],
    packs := [⟨1, "Basic", "", "basic", 999, 1, true⟩],
    subs := [⟨1, 1, 1, .active, none, none, some 0, some 5, none⟩],
    api_keys := [], nextSubId := 2 }

def c2_row : AdminSubRow :=
  ⟨1, "Alice", "a@b.c", "Basic", "basic", 999, .active, none, none,
   some 0, some 5⟩

/-- **C2** counterexample: the admin reader `list_subscriptions` returns a
subscription whose `expires_at` (5) is already in the past (now = 10) with
its stored status `active`, not `expired`; the handler performs no write at
all (its type is pure), so the lazy-expiry transition claimed for *every*
reader does not happen on the admin read path. -/
theorem c2_counterexample :
    list_subscriptions c2_db none 1 10 = [c2_row] ∧
    c2_row.expires_at = some 5 ∧ (5 : Nat) < 10 ∧ c2_row.status ≠ .expired := by
  exact ⟨rfl, rfl, by decide, by decide⟩

/-- On the shared customer/SDK read path, a returned subscription whose
`expires_at` is before `now` comes back with status `expired`,
`is_valid = false`, and the expiry is persisted in the returned store. -/
theorem read_active_lazy_core (db : DB) (cid now : Nat) (db₁ : DB)
    (r : SubData) (h : read_active_subscription db cid now = .ok (db₁, r))
    (e : Nat) (he : r.expires_at = some e) (hlt : e < now) :
    r.status = .expired ∧ r.is_valid = false ∧
    ∀ s ∈ db₁.subs, s.id = r.id → s.status = .expired := by
  unfold read_active_subscription at h
  split at h
  · exact absurd h (by simp)
  rename_i sub hfound
  split at h
  · exact absurd h (by simp)
  rename_i pack hpack
  split at h
  case _ hexp =>
    rw [Except.ok.injEq, Prod.mk.injEq] at h
    obtain ⟨hdb, hr⟩ := h
    subst hdb
    subst hr
    refine ⟨rfl, rfl, ?_⟩
    intro s hs hid
    simp only [expireSub, List.mem_map] at hs
    obtain ⟨s0, hs0, hfs⟩ := hs
    by_cases h0 : s0.id = sub.id
    · have : (s0.id == sub.id) = true := by simpa using h0
      rw [if_pos this] at hfs
      rw [← hfs]
    · have : (s0.id == sub.id) = false := by simpa using h0
      rw [if_neg (by simp [this])] at hfs
      subst hfs
      exact absurd hid h0
  case _ hexp =>
    rw [Except.ok.injEq, Prod.mk.injEq] at h
    obtain ⟨hdb, hr⟩ := h
    subst hr
    exfalso
    apply hexp
    have hsub : sub.expires_at = some e := he
    unfold isExpiredAt
    rw [hsub]
    simpa using hlt

/-- **C2** (amended): the lazy expiry transition — mutate the status to
`expired` and persist before returning — happens on the customer read path
and on the SDK read path; the admin reader `list_subscriptions` performs
no expiry check and returns the stored status unchanged (see the
counterexample). -/
theorem c2_amended_lazy_expiry :
    (∀ db uid now db₁ r e,
       get_customer_subscription db uid now = .ok (db₁, r) →
       r.expires_at = some e → e < now →
       r.status = .expired ∧ r.is_valid = false ∧
       ∀ s ∈ db₁.subs, s.id = r.id → s.status = .expired) ∧
    (∀ db cid now db₁ r e,
       get_sdk_subscription db cid now = .ok (db₁, r) →
       r.expires_at = some e → e < now →
       r.status = .expired ∧ r.is_valid = false ∧
       ∀ s ∈ db₁.subs, s.id = r.id → s.status = .expired) := by
  constructor
  · intro db uid now db₁ r e h he hlt
    unfold get_customer_subscription at h
    split at h
    · exact absurd h (by simp)
    exact read_active_lazy_core db _ now db₁ r h e he hlt
  · intro db cid now db₁ r e h he hlt
    exact read_active_lazy_core db cid now db₁ r h e he hlt

def c2_dbE : DB :=
  { c2_db with subs := [⟨1, 1, 1, .expired, none, none, some 0, some 5, none⟩] }

def c2_rec : SubData :=
  ⟨1, "Basic", "basic", 999, .expired, none, none, some 0, some 5, false⟩

/-- Witness instantiating `c2_amended_lazy_expiry` on a concrete store with
an expired `active` subscription read at `now = 10`. -/
theorem c2_amended_lazy_expiry_witness :
    c2_rec.status = .expired ∧ c2_rec.is_valid = false := by
  refine ⟨(c2_amended_lazy_expiry.1 c2_db 10 10 c2_dbE c2_rec 5 rfl rfl
    (by decide)).1, ?_⟩
  exact (c2_amended_lazy_expiry.2 c2_db 1 10 c2_dbE c2_rec 5 rfl rfl
    (by decide)).2.1

/-! ## C3 -/

/-- After a successful read, either the store is unchanged (the
non-expired branch) or the expiring read has left no further subscription
in `{active, approved}` for the customer, so a second read 404s. -/
theorem read_active_second_read (db : DB) (cid now : Nat) (db₁ : DB)
    (r : SubData) (hInv : atMostOneLive db)
    (h : read_active_subscription db cid now = .ok (db₁, r)) :
    db₁ = db ∨
    read_active_subscription db₁ cid now =
      .error (.notFound "No active subscription found") := by
  unfold read_active_subscription at h
  split at h
  · exact absurd h (by simp)
  rename_i sub hfound
  split at h
  · exact absurd h (by simp)
  rename_i pack hpack
  have hsubmem : sub ∈ db.subs := List.mem_of_find?_eq_some hfound
  have hsublive : livePred cid sub = true := by
    have hf := List.find?_some hfound
    rw [Bool.and_eq_true] at hf
    exact hf.1
  split at h
  case _ hexp =>
    right
    rw [Except.ok.injEq, Prod.mk.injEq] at h
    obtain ⟨hdb, -⟩ := h
    subst hdb
    unfold read_active_subscription
    split
    · rfl
    rename_i s2 hfound2
    exfalso
    have hs2 := List.find?_some hfound2
    have hmem := List.mem_of_find?_eq_some hfound2
    rw [Bool.and_eq_true] at hs2
    have hs2live : livePred cid s2 = true := hs2.1
    simp only [expireSub, List.mem_map] at hmem
    obtain ⟨s0, hs0, hfs⟩ := hmem
    by_cases h0 : s0.id = sub.id
    · have hb : (s0.id == sub.id) = true := by simpa using h0
      rw [if_pos hb] at hfs
      rw [← hfs] at hs2live
      simp [livePred, isLiveB] at hs2live
    · have hb : (s0.id == sub.id) = false := by simpa using h0
      rw [if_neg (by simp [hb])] at hfs
      subst hfs
      have hne : s0 ≠ sub := fun hc => h0 (by rw [hc])
      have h2 := two_mem_le_countP hs0 hsubmem hne hs2live hsublive
      have := hInv cid
      unfold liveCount at this
      omega
  case _ hexp =>
    left
    rw [Except.ok.injEq, Prod.mk.injEq] at h
    exact h.1.symm

/-- **C3** (confirmed): reading a subscription whose `expires_at` is past
via the shared `GetActiveSubscription` path returns it with status
`expired`, and the lazy write is idempotent: under the at-most-one-live
invariant, performing the read again on the resulting store leaves the
store exactly as after the first read — no second transition or other
side effect. -/
theorem c3_expiry_read_idempotent :
    (∀ db cid now db₁ r e,
       read_active_subscription db cid now = .ok (db₁, r) →
       r.expires_at = some e → e < now → r.status = .expired) ∧
    (∀ db cid now, atMostOneLive db →
       readStateAfter (readStateAfter db cid now) cid now =
         readStateAfter db cid now) := by
  constructor
  · intro db cid now db₁ r e h he hlt
    exact (read_active_lazy_core db cid now db₁ r h e he hlt).1
  · intro db cid now hInv
    cases hread : read_active_subscription db cid now with
    | error err =>
      have h1 : readStateAfter db cid now = db := by
        unfold readStateAfter
        rw [hread]
      rw [h1]
      exact h1
    | ok p =>
      obtain ⟨db₁, r⟩ := p
      have h1 : readStateAfter db cid now = db₁ := by
        unfold readStateAfter
        rw [hread]
      rcases read_active_second_read db cid now db₁ r hInv hread with hsame | herr
      · rw [h1]
        subst hsame
        exact h1
      · rw [h1]
        unfold readStateAfter
        rw [herr]

/-- Witness instantiating `c3_expiry_read_idempotent` on a concrete store
with an expired `active` subscription read at `now = 10`. -/
theorem c3_expiry_read_idempotent_witness :
    c2_rec.status = .expired ∧
    readStateAfter (readStateAfter c2_db 1 10) 1 10 = readStateAfter c2_db 1 10 := by
  constructor
  · exact c3_expiry_read_idempotent.1 c2_db 1 10 c2_dbE c2_rec 5 rfl rfl
      (by decide)
  · refine c3_expiry_read_idempotent.2 c2_db 1 10 ?_
    intro cid
    exact le_trans (List.countP_le_length _) (by decide)

/-! ## C4 -/

def c4_subA : Subscription :=
  ⟨1, 1, 1, .active, none, none, some 1, some 2592000, none⟩

def c4_dbA : DB := { c1_db0 with subs := [c4_subA], nextSubId := 2 }

def c4_subP : Subscription :=
  ⟨1, 1, 1, .approved, some 0, some 0, none, some 2592001, none⟩

def c4_dbP : DB := { c1_db0 with subs := [c4_subP], nextSubId := 2 }

/-- **C4** counterexample: both `AssignSubscription` and
`ApproveSubscription` read the clock twice.  With clock reads 0 then 1
(one month validity, 30 days = 2592000 s), the assigned subscription
stores `expires_at = 2592000` computed from the first read but
`assigned_at = 1` from the second, so `expires_at ≠ assigned_at +
validity_months*30 days`; the approved subscription stores
`approved_at = 0` from the first read but `expires_at = 2592001` from the
second, so `expires_at ≠ approved_at + validity_months*30 days`. -/
theorem c4_counterexample :
    assign_subscription c1_db0 1 1 0 1 = .ok c4_dbA ∧
    c4_subA.assigned_at = some 1 ∧ c4_subA.expires_at = some 2592000 ∧
    (2592000 : Nat) ≠ 1 + 1 * 30 * 86400 ∧
    approve_subscription c1_db1 1 0 1 = .ok c4_dbP ∧
    c4_subP.approved_at = some 0 ∧ c4_subP.expires_at = some 2592001 ∧
    (2592001 : Nat) ≠ 0 + 1 * 30 * 86400 := by
  exact ⟨rfl, rfl, rfl, by decide, rfl, rfl, rfl, by decide⟩

/-- **C4** (amended): `AssignSubscription` stores
`expires_at = t1 + validity_months*30 days` where `t1` is its first
`utcnow()` read and `assigned_at = t2` its second; `ApproveSubscription`
stores `approved_at = t1` and `expires_at = t2 + validity_months*30 days`.
When the two clock reads of the operation coincide (`t1 = t2 = t`), the
claimed exact equalities hold; when they differ they fail (see the
counterexample). -/
theorem c4_amended_expiry_arithmetic :
    (∀ db cid pid t db' pack,
       db.packs.find? (fun p => p.id == pid) = some pack →
       assign_subscription db cid pid t t = .ok db' →
       db'.subs = db.subs ++
         [⟨db.nextSubId, cid, pid, .active, none, none, some t,
           some (t + pack.validity_months * 30 * 86400), none⟩]) ∧
    (∀ db sid t db' sub pack,
       db.subs.find? (fun s => s.id == sid) = some sub →
       db.packs.find? (fun p => p.id == sub.pack_id) = some pack →
       approve_subscription db sid t t = .ok db' →
       ∀ s ∈ db'.subs, s.id = sid →
         s.approved_at = some t ∧
         s.expires_at = some (t + pack.validity_months * 30 * 86400)) := by
  constructor
  · intro db cid pid t db' pack hp h
    unfold assign_subscription at h
    split at h
    · exact absurd h (by simp)
    split at h
    · exact absurd h (by simp)
    rename_i pack' hp'
    split at h
    · exact absurd h (by simp)
    rw [hp] at hp'
    injection hp' with hpp
    subst hpp
    rw [Except.ok.injEq] at h
    subst h
    rfl
  · intro db sid t db' sub pack hsub hp h
    unfold approve_subscription at h
    split at h
    · exact absurd h (by simp)
    rename_i sub' hsub'
    rw [hsub] at hsub'
    injection hsub' with hss
    subst hss
    split at h
    case _ =>
      split at h
      · exact absurd h (by simp)
      split at h
      · exact absurd h (by simp)
      rename_i pack' hp'
      rw [hp] at hp'
      injection hp' with hpp
      subst hpp
      rw [Except.ok.injEq] at h
      subst h
      intro s hs hid
      simp only [List.mem_map] at hs
      obtain ⟨s0, hs0, hfs⟩ := hs
      by_cases h0 : s0.id = sid
      · have hb : (s0.id == sid) = true := by simpa using h0
        rw [if_pos hb] at hfs
        subst hfs
        exact ⟨rfl, rfl⟩
      · have hb : (s0.id == sid) = false := by simpa using h0
        rw [if_neg (by simp [hb])] at hfs
        subst hfs
        exact absurd hid h0
    case _ =>
      exact absurd h (by simp)

def c4_dbWA : DB :=
  { c1_db0 with
    subs := [⟨1, 1, 1, .active, none, none, some 7, some 2592007, none⟩],
    nextSubId := 2 }

def c4_dbWP : DB :=
  { c1_db0 with
    subs := [⟨1, 1, 1, .approved, some 0, some 7, none, some 2592007, none⟩],
    nextSubId := 2 }

/-- Witness instantiating `c4_amended_expiry_arithmetic` with both clock
reads at `t = 7`. -/
theorem c4_amended_expiry_arithmetic_witness :
    c4_dbWA.subs = c1_db0.subs ++
      [⟨1, 1, 1, .active, none, none, some 7, some (7 + 1 * 30 * 86400),
        none⟩] ∧
    Subscription.approved_at ⟨1, 1, 1, .approved, some 0, some 7, none,
      some 2592007, none⟩ = some 7 ∧
    Subscription.expires_at ⟨1, 1, 1, .approved, some 0, some 7, none,
      some 2592007, none⟩ = some (7 + 1 * 30 * 86400) := by
  have h1 := c4_amended_expiry_arithmetic.1 c1_db0 1 1 7 c4_dbWA
    ⟨1, "Basic", "", "basic", 999, 1, true⟩ rfl rfl
  have h2 := c4_amended_expiry_arithmetic.2 c1_db1 1 7 c4_dbWP
    ⟨1, 1, 1, .requested, some 0, none, none, none, none⟩
    ⟨1, "Basic", "", "basic", 999, 1, true⟩ rfl rfl rfl
    ⟨1, 1, 1, .approved, some 0, some 7, none, some 2592007, none⟩
    (by decide) rfl
  exact ⟨h1, h2.1, h2.2⟩

/-! ## C5 -/

/-- **C5** (confirmed): with the customer profile resolved,
`RequestSubscription` fails Conflict (HTTP 400, the fixed detail string)
when the customer already has a subscription in
`{requested, approved, active}`; otherwise fails NotFound when the SKU
does not denote an active pack; otherwise creates exactly one new
subscription with `status = requested` and `requested_at = now`.  The
three cases are exhaustive, so these are the only outcomes. -/
theorem c5_request_subscription_outcomes :
    ∀ db uid sku now c,
      db.customers.find? (fun x => x.user_id == uid) = some c →
      ((∀ s, db.subs.find? (pendingPred c.id) = some s →
          request_customer_subscription db uid sku now =
            .error (.badRequest "You already have an active or pending subscription")) ∧
       (db.subs.find? (pendingPred c.id) = none →
        db.packs.find? (fun p => p.sku == sku && p.is_active) = none →
        request_customer_subscription db uid sku now =
          .error (.notFound "Subscription pack not found")) ∧
       (∀ pack, db.subs.find? (pendingPred c.id) = none →
        db.packs.find? (fun p => p.sku == sku && p.is_active) = some pack →
        request_customer_subscription db uid sku now =
          .ok { db with
                subs := db.subs ++
                  [⟨db.nextSubId, c.id, pack.id, .requested, some now,
                    none, none, none, none⟩],
                nextSubId := db.nextSubId + 1 })) := by
  intro db uid sku now c hc
  refine ⟨?_, ?_, ?_⟩
  · intro s hs
    simp only [request_customer_subscription, hc, hs]
  · intro hnone hpack
    simp only [request_customer_subscription, hc, hnone, hpack]
  · intro pack hnone hpack
    simp only [request_customer_subscription, hc, hnone, hpack]

/-- Witness instantiating all three outcomes of
`c5_request_subscription_outcomes` on concrete stores. -/
theorem c5_request_subscription_outcomes_witness :
    request_customer_subscription c1_db1 10 "basic" 1 =
      .error (.badRequest "You already have an active or pending subscription") ∧
    request_customer_subscription c1_db0 10 "nope" 0 =
      .error (.notFound "Subscription pack not found") ∧
    request_customer_subscription c1_db0 10 "basic" 0 =
      .ok { c1_db0 with
            subs := c1_db0.subs ++
              [⟨c1_db0.nextSubId, 1, 1, .requested, some 0, none, none,
                none, none⟩],
            nextSubId := c1_db0.nextSubId + 1 } := by
  have h1 := (c5_request_subscription_outcomes c1_db1 10 "basic" 1
    ⟨1, 10, "Alice", "a@b.c", "1", true⟩ rfl).1
    ⟨1, 1, 1, .requested, some 0, none, none, none, none⟩ rfl
  have h2 := (c5_request_subscription_outcomes c1_db0 10 "nope" 0
    ⟨1, 10, "Alice", "a@b.c", "1", true⟩ rfl).2.1 rfl rfl
  have h3 := (c5_request_subscription_outcomes c1_db0 10 "basic" 0
    ⟨1, 10, "Alice", "a@b.c", "1", true⟩ rfl).2.2
    ⟨1, "Basic", "", "basic", 999, 1, true⟩ rfl rfl
  exact ⟨h1, h2, h3⟩

/-! ## C6 -/

/-- Foreign-key integrity of `Subscription.pack_id`, guaranteed by the
schema (`ForeignKey, nullable=False`). -/
def fkIntact (db : DB) : Prop :=
  ∀ s ∈ db.subs, ∃ p ∈ db.packs, p.id = s.pack_id

/-- **C6** (confirmed): `ApproveSubscription` fails NotFound when no
subscription has the id; fails PreconditionFailed (HTTP 400) when the
status is not `requested`; fails Conflict (HTTP 400) when another
subscription of the same customer is in `{active, approved}`; otherwise
sets `status = approved`, `approved_at` and `expires_at`.  Under
foreign-key integrity the pack lookup always succeeds, so the three
failures are the only ones. -/
theorem c6_approve_subscription_outcomes :
    ∀ db sid t1 t2,
      (db.subs.find? (fun s => s.id == sid) = none →
        approve_subscription db sid t1 t2 =
          .error (.notFound "Subscription not found")) ∧
      (∀ sub, db.subs.find? (fun s => s.id == sid) = some sub →
        sub.status ≠ .requested →
        approve_subscription db sid t1 t2 =
          .error (.badRequest "Only requested subscriptions can be approved")) ∧
      (∀ sub s', db.subs.find? (fun s => s.id == sid) = some sub →
        sub.status = .requested →
        db.subs.find? (fun s => s.customer_id == sub.customer_id &&
          isLiveB s.status && s.id != sid) = some s' →
        approve_subscription db sid t1 t2 =
          .error (.badRequest "Customer already has an active subscription")) ∧
      (∀ sub pack, db.subs.find? (fun s => s.id == sid) = some sub →
        sub.status = .requested →
        db.subs.find? (fun s => s.customer_id == sub.customer_id &&
          isLiveB s.status && s.id != sid) = none →
        db.packs.find? (fun p => p.id == sub.pack_id) = some pack →
        approve_subscription db sid t1 t2 =
          .ok { db with
                subs := db.subs.map (fun s =>
                  if s.id == sid then
                    { s with
                        status := .approved,
                        approved_at := some t1,
                        expires_at :=
                          some (t2 + pack.validity_months * 30 * 86400) }
                  else s) }) ∧
      (∀ sub, fkIntact db →
        db.subs.find? (fun s => s.id == sid) = some sub →
        db.packs.find? (fun p => p.id == sub.pack_id) ≠ none) := by
  intro db sid t1 t2
  refine ⟨?_, ?_, ?_, ?_, ?_⟩
  · intro hnone
    simp only [approve_subscription, hnone]
  · intro sub hfound hst
    cases hs : sub.status
    case requested => exact absurd hs hst
    all_goals simp only [approve_subscription, hfound, hs]
  · intro sub s' hfound hst hconf
    simp only [approve_subscription, hfound, hst, hconf]
  · intro sub pack hfound hst hconf hpack
    simp only [approve_subscription, hfound, hst, hconf, hpack]
  · intro sub hfk hfound hpk
    have hmem : sub ∈ db.subs := List.mem_of_find?_eq_some hfound
    obtain ⟨p, hp, hpid⟩ := hfk sub hmem
    have := List.find?_eq_none.mp hpk p hp
    exact this (by simpa using hpid)

/-- Witness instantiating all conjuncts of
`c6_approve_subscription_outcomes` on concrete stores. -/
theorem c6_approve_subscription_outcomes_witness :
    approve_subscription c1_db0 99 0 0 =
      .error (.notFound "Subscription not found") ∧
    approve_subscription c4_dbA 1 0 0 =
      .error (.badRequest "Only requested subscriptions can be approved") ∧
    approve_subscription c1_db2 1 0 0 =
      .error (.badRequest "Customer already has an active subscription") ∧
    approve_subscription c1_db1 1 7 8 = .ok c1_db3 ∧
    c1_db1.packs.find?
      (fun p => p.id == Subscription.pack_id
        ⟨1, 1, 1, .requested, some 0, none, none, none, none⟩) ≠ none := by
  have h1 := (c6_approve_subscription_outcomes c1_db0 99 0 0).1 rfl
  have h2 := (c6_approve_subscription_outcomes c4_dbA 1 0 0).2.1 c4_subA rfl
    (by decide)
  have h3 := (c6_approve_subscription_outcomes c1_db2 1 0 0).2.2.1
    ⟨1, 1, 1, .requested, some 0, none, none, none, none⟩
    ⟨2, 1, 1, .active, none, none, some 6, some 2592005, none⟩ rfl rfl rfl
  have h4 := (c6_approve_subscription_outcomes c1_db1 1 7 8).2.2.2.1
    ⟨1, 1, 1, .requested, some 0, none, none, none, none⟩
    ⟨1, "Basic", "", "basic", 999, 1, true⟩ rfl rfl rfl rfl
  have h5 := (c6_approve_subscription_outcomes c1_db1 1 7 8).2.2.2.2
    ⟨1, 1, 1, .requested, some 0, none, none, none, none⟩
    (by intro s hs; exact ⟨⟨1, "Basic", "", "basic", 999, 1, true⟩, by decide,
      by cases hs with
        | head => rfl
        | tail _ h => cases h⟩) rfl
  exact ⟨h1, h2, h3, h4.trans (by rfl), h5⟩

/-! ## C7 -/

/-- **C7** (confirmed): every failure of bearer-token identity resolution
surfaces as the one uniform Unauthorized error.  `verify_token` maps
every `JWTError` to it, and `get_current_user` wraps its whole body —
missing `sub` claim, unknown subject email, inactive principal, and any
other raised error, since the inner `HTTPException`s are themselves
caught by `except Exception` — in the same uniform 401, so the caller
cannot tell which check failed. -/
theorem c7_uniform_unauthorized :
    (∀ decode db token e,
       get_current_user decode db token = .error e →
       get_current_user decode db token =
         .error (.unauthorized "Could not validate credentials")) ∧
    (∀ decode token e,
       verify_token decode token = .error e →
       verify_token decode token =
         .error (.unauthorized "Could not validate credentials")) := by
  constructor
  · intro decode db token e h
    unfold get_current_user at h ⊢
    split at h
    · exact absurd h (by simp)
    · rfl
  · intro decode token e h
    unfold verify_token at h ⊢
    split at h
    · exact absurd h (by simp)
    · rfl

/-- A decoder standing for `jwt.decode` raising `JWTError`. -/
def c7_decode_fail : String → Option TokenPayload := fun _ => none

/-- A decoder returning a payload whose subject is a known email. -/
def c7_decode_ok : String → Option TokenPayload :=
  fun _ => some ⟨some "a@b.c", some "customer"⟩

/-- A store whose only principal is inactive. -/
def c7_db_inactive : DB :=
  { c1_db0 with users := [⟨10, "a@b.c", "h", "customer", false⟩] }

/-- Witness instantiating `c7_uniform_unauthorized` on a failing decode,
an inactive principal, and an unknown subject email. -/
theorem c7_uniform_unauthorized_witness :
    get_current_user c7_decode_fail c1_db0 "t" =
      .error (.unauthorized "Could not validate credentials") ∧
    get_current_user c7_decode_ok c7_db_inactive "t" =
      .error (.unauthorized "Could not validate credentials") ∧
    get_current_user c7_decode_ok { c1_db0 with users := [] } "t" =
      .error (.unauthorized "Could not validate credentials") ∧
    verify_token c7_decode_fail "t" =
      .error (.unauthorized "Could not validate credentials") := by
  exact ⟨c7_uniform_unauthorized.1 c7_decode_fail c1_db0 "t" _ rfl,
         c7_uniform_unauthorized.1 c7_decode_ok c7_db_inactive "t" _ rfl,
         c7_uniform_unauthorized.1 c7_decode_ok _ "t" _ rfl,
         c7_uniform_unauthorized.2 c7_decode_fail "t" _ rfl⟩

/-! ## C8 -/

def c8_db1 : DB :=
  { c1_db0 with customers := [⟨1, 10, "Alice", "a@b.c", "1", false⟩] }

def c8_db2 : DB :=
  { c8_db1 with
    subs := [⟨1, 1, 1, .active, none, none, some 0, some 2592000, none⟩],
    nextSubId := 2 }

/-- **C8** counterexample: after `delete_customer` soft-deletes customer 1
(`is_active = false`), `assign_subscription` — whose customer and pack
lookups have no `is_active` filter — still finds the customer and creates
an active subscription for them, so a soft-deleted customer is not
excluded from every subsequent lookup. -/
theorem c8_counterexample :
    delete_customer c1_db0 1 = .ok c8_db1 ∧
    c8_db1.customers = [⟨1, 10, "Alice", "a@b.c", "1", false⟩] ∧
    assign_subscription c8_db1 1 1 0 0 = .ok c8_db2 ∧
    c8_db2.subs = [⟨1, 1, 1, .active, none, none, some 0, some 2592000, none⟩] := by
  exact ⟨rfl, rfl, rfl, rfl⟩

/-- **C8** (amended): soft-deleted customers and packs are excluded from
the admin lookups that filter on the active flag — `get_customer`,
`list_customers`, `get_subscription_pack` — but not from
`assign_subscription`'s customer/pack lookups nor from
`delete_customer`'s lookup, which omit the filter (see the
counterexample). -/
theorem c8_amended_soft_delete_lookups :
    (∀ db cid, (∀ c ∈ db.customers, c.id = cid → c.is_active = false) →
       get_customer db cid = .error (.notFound "Customer not found")) ∧
    (∀ db cid page limit search c,
       (∀ c' ∈ db.customers, c'.id = cid → c'.is_active = false) →
       c ∈ (list_customers db page limit search).1 → c.id ≠ cid) ∧
    (∀ db pid, (∀ p ∈ db.packs, p.id = pid → p.is_active = false) →
       get_subscription_pack db pid =
         .error (.notFound "Subscription pack not found")) := by
  refine ⟨?_, ?_, ?_⟩
  · intro db cid h
    have hnone : db.customers.find? (fun c => c.id == cid && c.is_active) =
        none := by
      rw [List.find?_eq_none]
      intro c hc hp
      rw [Bool.and_eq_true] at hp
      have hid : c.id = cid := by simpa using hp.1
      have := h c hc hid
      rw [this] at hp
      exact absurd hp.2 (by simp)
    unfold get_customer
    rw [hnone]
  · intro db cid page limit search c h hmem
    simp only [list_customers] at hmem
    have hbase : c ∈ db.customers.filter (fun c => c.is_active) := by
      have h1 := List.mem_of_mem_drop (List.mem_of_mem_take hmem)
      cases search with
      | none => exact h1
      | some pat => exact (List.mem_filter.mp h1).1
    rw [List.mem_filter] at hbase
    intro hid
    have := h c hbase.1 hid
    rw [this] at hbase
    exact absurd hbase.2 (by simp)
  · intro db pid h
    have hnone : db.packs.find? (fun p => p.id == pid && p.is_active) =
        none := by
      rw [List.find?_eq_none]
      intro p hp hpred
      rw [Bool.and_eq_true] at hpred
      have hid : p.id = pid := by simpa using hpred.1
      have := h p hp hid
      rw [this] at hpred
      exact absurd hpred.2 (by simp)
    unfold get_subscription_pack
    rw [hnone]

def c8_dbW : DB :=
  { c1_db0 with
    customers := [⟨1, 10, "Alice", "a@b.c", "1", false⟩,
                  ⟨2, 11, "Bob", "b@c.d", "2", true⟩] }

def c8_dbWP : DB :=
  { c1_db0 with packs := [⟨1, "Basic", "", "basic", 999, 1, false⟩] }

/-- Witness instantiating `c8_amended_soft_delete_lookups` on stores with
a soft-deleted customer and a soft-deleted pack. -/
theorem c8_amended_soft_delete_lookups_witness :
    get_customer c8_db1 1 = .error (.notFound "Customer not found") ∧
    Customer.id ⟨2, 11, "Bob", "b@c.d", "2", true⟩ ≠ 1 ∧
    get_subscription_pack c8_dbWP 1 =
      .error (.notFound "Subscription pack not found") := by
  refine ⟨c8_amended_soft_delete_lookups.1 c8_db1 1 (by decide), ?_, ?_⟩
  · exact c8_amended_soft_delete_lookups.2.1 c8_dbW 1 1 10 none
      ⟨2, 11, "Bob", "b@c.d", "2", true⟩ (by decide) (by decide)
  · exact c8_amended_soft_delete_lookups.2.2 c8_dbWP 1 (by decide)

/-! ## C9 -/

/-- **C9** (confirmed): `verify_password` returns the strong verifier's
result whenever it verifies the stored hash; when the verifier raises, it
compares the MD5 digest of the plaintext against the stored hash exactly
when that hash is 32 characters long (the MD5 hex length), and returns
`false` for any other unverifiable hash. -/
theorem c9_verify_password_cases :
    ∀ bcryptVerify md5hex plain hashed,
      (∀ b, bcryptVerify plain hashed = some b →
         verify_password bcryptVerify md5hex plain hashed = b) ∧
      (bcryptVerify plain hashed = none → hashed.length = 32 →
         verify_password bcryptVerify md5hex plain hashed =
           (md5hex plain == hashed)) ∧
      (bcryptVerify plain hashed = none → hashed.length ≠ 32 →
         verify_password bcryptVerify md5hex plain hashed = false) := by
  intro bcryptVerify md5hex plain hashed
  refine ⟨?_, ?_, ?_⟩
  · intro b hb
    simp only [verify_password, hb]
  · intro hn hlen
    simp only [verify_password, hn]
    rw [if_pos (by simpa using hlen)]
  · intro hn hlen
    simp only [verify_password, hn]
    rw [if_neg (by simpa using hlen)]

/-- `pwd_context.verify` succeeding with `true`. -/
def c9_bvTrue : String → String → Option Bool := fun _ _ => some true

/-- `pwd_context.verify` raising on an unrecognized hash format. -/
def c9_bvNone : String → String → Option Bool := fun _ _ => none

/-- A stand-in MD5 hex digest function. -/
def c9_md5 : String → String := fun _ => "d41d8cd98f00b204e9800998ecf8427e"

/-- A stored hash of the weak scheme's fixed length (32 characters). -/
def c9_h32 : String := "d41d8cd98f00b204e9800998ecf8427e"

/-- Witness instantiating the three cases of `c9_verify_password_cases`. -/
theorem c9_verify_password_cases_witness :
    verify_password c9_bvTrue c9_md5 "p" "h" = true ∧
    verify_password c9_bvNone c9_md5 "p" c9_h32 = (c9_md5 "p" == c9_h32) ∧
    verify_password c9_bvNone c9_md5 "p" "short" = false := by
  refine ⟨(c9_verify_password_cases c9_bvTrue c9_md5 "p" "h").1 true rfl,
          (c9_verify_password_cases c9_bvNone c9_md5 "p" c9_h32).2.1 rfl
            (by decide),
          (c9_verify_password_cases c9_bvNone c9_md5 "p" "short").2.2 rfl
            (by decide)⟩

/-! ## C10 -/

/-- **C10** (confirmed): `DeactivateSubscription` performs no expiry
check: for a subscription in `{active, approved}` whose `expires_at` is
already past `now`, deactivation (customer and SDK paths alike) still
succeeds, setting `status = inactive` and `deactivated_at = now` —
never `expired`; the lazy expiry transition lives only on the read
paths. -/
theorem c10_deactivate_ignores_expiry :
    (∀ db cid now sub e,
       db.subs.find? (livePred cid) = some sub →
       sub.expires_at = some e → e < now →
       deactivate_sdk_subscription db cid now =
         .ok { db with
               subs := db.subs.map (fun s =>
                 if s.id == sub.id then
                   { s with status := .inactive, deactivated_at := some now }
                 else s) }) ∧
    (∀ db uid now c sub e,
       db.customers.find? (fun x => x.user_id == uid) = some c →
       db.subs.find? (livePred c.id) = some sub →
       sub.expires_at = some e → e < now →
       deactivate_customer_subscription db uid now =
         .ok { db with
               subs := db.subs.map (fun s =>
                 if s.id == sub.id then
                   { s with status := .inactive, deactivated_at := some now }
                 else s) }) := by
  constructor
  · intro db cid now sub e hfound he hlt
    simp only [deactivate_sdk_subscription, deactivate_subscription_core,
      hfound]
  · intro db uid now c sub e hc hfound he hlt
    simp only [deactivate_customer_subscription,
      deactivate_subscription_core, hc, hfound]

def c10_dbW : DB :=
  { c2_db with
    subs := [⟨1, 1, 1, .inactive, none, none, some 0, some 5, some 10⟩] }

/-- Witness instantiating `c10_deactivate_ignores_expiry` on a store whose
only subscription is `active` with `expires_at = 5`, deactivated at
`now = 10`. -/
theorem c10_deactivate_ignores_expiry_witness :
    deactivate_sdk_subscription c2_db 1 10 = .ok c10_dbW ∧
    deactivate_customer_subscription c2_db 10 10 = .ok c10_dbW := by
  have h1 := c10_deactivate_ignores_expiry.1 c2_db 1 10
    ⟨1, 1, 1, .active, none, none, some 0, some 5, none⟩ 5 rfl rfl (by decide)
  have h2 := c10_deactivate_ignores_expiry.2 c2_db 10 10
    ⟨1, 10, "Alice", "a@b.c", "1", true⟩
    ⟨1, 1, 1, .active, none, none, some 0, some 5, none⟩ 5 rfl rfl rfl
    (by decide)
  exact ⟨h1.trans (by rfl), h2.trans (by rfl)⟩

end LMS
